import Mathlib

/-!
Verification of the BardLab Opentrons protocol scripts.

Shallow embedding of the bookkeeping logic of the liquid-handling protocol
scripts in this repository:

* `BombBio_Trizol_RNA_reuse_noShake_v3.py` (tip-rack rotation `swap_tips` /
  `get_next_tip`, supernatant removal `removeSup`, the Rebind distribution
  loop);
* `BombBio_Trizol_RNA_reuse_shake_v1.py` and `Yeast_OPP_v1.py`
  (`load_new_tips` / `get_next_tip`, `removeSup`);
* `UltraExpress/P1_V1.py` and `UltraExpress/P4_V1.py` (sample/column split,
  tip-slot allocation, `well_to_list`, `pick_up_200`, the setup error check).

Pure data (counters, lists of rack identifiers, column labels, traces of
pipette actions) is modelled directly; the vendor runtime objects (labware,
pipettes) are represented by identifiers, and each source function becomes a
Lean function from state to state together with the trace of hardware calls
it emits.
-/

namespace BardLab

/-! ## Tip bookkeeping shared by the BombBio and Yeast_OPP protocols

The three scripts keep dictionaries keyed by the strings `"tip50"` and
`"tip1000"`; we key by this two-element type instead. -/

inductive TipType where
  | tip50
  | tip1000
deriving DecidableEq, Repr

/-- Update a `TipType`-indexed map at one key. -/
def TipType.update {α : Type} (f : TipType → α) (t : TipType) (a : α) :
    TipType → α :=
  fun u => if u = t then a else f u

/-! ### `BombBio_Trizol_RNA_reuse_noShake_v3.py`

`ACTIVE_TIPRACKS` maps each tip type to a dict with a `deckslot` and a
`rack`; `BACKUP_TIPRACKS` maps each tip type to a Python list that is
appended to on load and `pop()`-ed (from the end) on swap; `TIPS_USED`
counts tips used from the active rack.  Racks are identified by natural
numbers, and `fresh` is the next identifier handed out by
`protocol.load_labware(..., OFF_DECK)`. -/

structure TipStateV3 where
  deckslot : TipType → Option String
  rack : TipType → Option Nat
  backups : TipType → List Nat
  tipsUsed : TipType → Nat
  fresh : Nat

/-- `swap_tips` of `BombBio_Trizol_RNA_reuse_noShake_v3.py` (lines 236-264).
If `new_slot` is given the deckslot entry is updated first; if no rack is
active a fresh off-deck box is moved in; otherwise the last backup box is
popped when the backup list is non-empty, else a fresh off-deck box is
loaded.  Finally the active rack entry becomes the new box. -/
def swap_tips (tip_type : TipType) (s : TipStateV3)
    (new_slot : Option String := none) : TipStateV3 :=
  let old_box := s.rack tip_type
  let s := match new_slot with
    | some sl => { s with deckslot := TipType.update s.deckslot tip_type (some sl) }
    | none => s
  match old_box with
  | none =>
      -- no rack on deck: load a fresh box from off deck
      { s with rack := TipType.update s.rack tip_type (some s.fresh),
               fresh := s.fresh + 1 }
  | some _ =>
      match (s.backups tip_type).getLast? with
      | some b =>
          -- backup tips on deck: pop the most recently added backup box
          let bs := (s.backups tip_type).dropLast
          { s with rack := TipType.update s.rack tip_type (some b),
                   backups := TipType.update s.backups tip_type bs }
      | none =>
          -- no backups: swap a fresh box in from off deck
          { s with rack := TipType.update s.rack tip_type (some s.fresh),
                   fresh := s.fresh + 1 }

/-- `get_next_tip` of `BombBio_Trizol_RNA_reuse_noShake_v3.py`
(lines 266-276).  Returns the new state together with the 1-based column
index `c` of the tip picked up (the source picks
the tip at row A, column `tips_used + 1`, of the active rack). -/
def get_next_tip_v3 (tip_type : TipType) (s : TipStateV3) :
    TipStateV3 × Nat :=
  let s :=
    if s.tipsUsed tip_type = 12 then
      let s := swap_tips tip_type s
      { s with tipsUsed := TipType.update s.tipsUsed tip_type 0 }
    else s
  let tip_col := s.tipsUsed tip_type + 1
  ({ s with tipsUsed := TipType.update s.tipsUsed tip_type tip_col }, tip_col)

/-- Deck setup of `BombBio_Trizol_RNA_reuse_noShake_v3.py` (lines 150-155):
the 1000 µL rack (id 0) is active in slot B3 with one backup (id 1) in D4,
no 50 µL rack is loaded, and both used counters start at 0. -/
def initStateV3 : TipStateV3 where
  deckslot := fun t => match t with
    | .tip50 => none
    | .tip1000 => some "B3"
  rack := fun t => match t with
    | .tip50 => none
    | .tip1000 => some 0
  backups := fun t => match t with
    | .tip50 => []
    | .tip1000 => [1]
  tipsUsed := fun _ => 0
  fresh := 2

/-- Run a sequence of `get_next_tip` calls (one entry per call, giving the
tip type requested) from a state, collecting the picked column indices. -/
def runCallsV3 (s : TipStateV3) : List TipType → TipStateV3 × List Nat
  | [] => (s, [])
  | t :: ts =>
      let (s1, c) := get_next_tip_v3 t s
      let (s2, cs) := runCallsV3 s1 ts
      (s2, c :: cs)

/-! ### `BombBio_Trizol_RNA_reuse_shake_v1.py` and `Yeast_OPP_v1.py`

Here `ACTIVE_TIPRACKS` maps each tip type directly to a rack (or `None`),
and the swap routine `load_new_tips` ends by calling `load_active_tips`,
which also resets the used counter to 0. -/

structure TipStateV1 where
  rack : TipType → Option Nat
  backups : TipType → List Nat
  tipsUsed : TipType → Nat
  fresh : Nat

/-- `load_active_tips` of `BombBio_Trizol_RNA_reuse_shake_v1.py`
(lines 191-193) and `Yeast_OPP_v1.py` (lines 97-99): install `tip_rack` as
the active rack for `tip_type` and reset its used counter to 0. -/
def load_active_tips (tip_type : TipType) (tip_rack : Nat) (s : TipStateV1) :
    TipStateV1 :=
  { s with rack := TipType.update s.rack tip_type (some tip_rack),
           tipsUsed := TipType.update s.tipsUsed tip_type 0 }

/-- `load_backup_tips` of the same two files: append a rack to the backup
list for `tip_type`. -/
def load_backup_tips (tip_type : TipType) (tip_rack : Nat) (s : TipStateV1) :
    TipStateV1 :=
  let bs := s.backups tip_type ++ [tip_rack]
  { s with backups := TipType.update s.backups tip_type bs }

/-- `load_new_tips` of `BombBio_Trizol_RNA_reuse_shake_v1.py`
(lines 202-219) and `Yeast_OPP_v1.py` (lines 108-125): pop the most
recently added backup box if one exists, otherwise load a fresh box from
off deck; then `load_active_tips` installs it (resetting the counter). -/
def load_new_tips (tip_type : TipType) (s : TipStateV1) : TipStateV1 :=
  match (s.backups tip_type).getLast? with
  | some b =>
      let bs := (s.backups tip_type).dropLast
      load_active_tips tip_type b
        { s with backups := TipType.update s.backups tip_type bs }
  | none =>
      load_active_tips tip_type s.fresh { s with fresh := s.fresh + 1 }

/-- `get_next_tip` of `BombBio_Trizol_RNA_reuse_shake_v1.py`
(lines 221-230) and `Yeast_OPP_v1.py` (lines 127-136), returning the new
state and the 1-based column index of the tip picked up. -/
def get_next_tip_v1 (tip_type : TipType) (s : TipStateV1) :
    TipStateV1 × Nat :=
  let s :=
    if s.tipsUsed tip_type = 12 then load_new_tips tip_type s else s
  let tip_col := s.tipsUsed tip_type + 1
  ({ s with tipsUsed := TipType.update s.tipsUsed tip_type tip_col }, tip_col)

/-- Tip setup of `BombBio_Trizol_RNA_reuse_shake_v1.py` (lines 187-200):
both entries start at `None` / empty / 0, then rack 0 becomes the active
1000 µL rack, rack 1 the active 50 µL rack, and rack 2 a 1000 µL backup. -/
def initStateV1 : TipStateV1 :=
  load_backup_tips .tip1000 2
    (load_active_tips .tip50 1
      (load_active_tips .tip1000 0
        { rack := fun _ => none, backups := fun _ => [],
          tipsUsed := fun _ => 0, fresh := 3 }))

/-- Run a sequence of `get_next_tip` calls in the shake-v1/Yeast_OPP
variant, collecting the picked column indices. -/
def runCallsV1 (s : TipStateV1) : List TipType → TipStateV1 × List Nat
  | [] => (s, [])
  | t :: ts =>
      let (s1, c) := get_next_tip_v1 t s
      let (s2, cs) := runCallsV1 s1 ts
      (s2, c :: cs)

/-! ## Supernatant removal and waste bookkeeping (`removeSup`)

Both BombBio protocols define `removeSup(PLATE, COL, SUPVOL, counter_dict,
Deepwell_Z_offset)`.  We record the pipette commands it issues as a trace of
actions; volumes and heights are rationals (the scripts manipulate Python
floats through `+`, `-`, `*` on decimal literals only). -/

/-- A location passed to a pipette command: `PLATE[COL].bottom(z)` or
`PLATE[COL].top(z)`. -/
inductive Loc where
  | bottom (plate : String) (col : String) (z : Rat)
  | top (plate : String) (col : String) (z : Rat)
deriving DecidableEq, Repr

/-- One pipette/protocol command issued by `removeSup`. -/
inductive SupAction where
  | setFlowRates (aspirate dispense blowOutRate : Rat)
  | moveTo (loc : Loc)
  | aspirate (vol : Rat)
  | delay
  | setDefaultSpeed (v : Rat)
  | comment (msg : String)
  | pause (msg : String)
  | dispense (vol : Rat) (loc : Loc)
  | blowOut
deriving DecidableEq, Repr

/-- The p1000 default flow rates of both BombBio files (aspirate 200,
dispense 200, blow-out 400). -/
def p1000_flow_rate_aspirate_default : Rat := 200
def p1000_flow_rate_dispense_default : Rat := 200
def p1000_flow_rate_blow_out_default : Rat := 400

/-- `removeSup` of `BombBio_Trizol_RNA_reuse_noShake_v3.py` (lines 309-339):
clamp `SUPVOL` up to 100, halve the flow rates, aspirate `SUPVOL-100` at
`bottom(Deepwell_Z_offset+2)` and 100 at `bottom(Deepwell_Z_offset+1)`, add
`SUPVOL*8` to the `WASTEVOL` counter, pause when the counter exceeds
150000, dispense `SUPVOL` at the top of waste-reservoir well A1, blow out,
and restore the flow rates.  Returns the action trace and the new counter
value. -/
def removeSup_v3 (PLATE COL : String) (SUPVOL : Rat) (wastevol : Rat)
    (Deepwell_Z_offset : Rat := 0) : List SupAction × Rat :=
  let SUPVOL := if SUPVOL < 100 then 100 else SUPVOL
  let wastevol := wastevol + SUPVOL * 8
  ([.setFlowRates (p1000_flow_rate_aspirate_default * (1/2))
      (p1000_flow_rate_dispense_default * (1/2))
      (p1000_flow_rate_blow_out_default * (1/2)),
    .moveTo (.bottom PLATE COL (Deepwell_Z_offset + 2)),
    .aspirate (SUPVOL - 100),
    .delay,
    .moveTo (.bottom PLATE COL (Deepwell_Z_offset + 1)),
    .aspirate 100,
    .setDefaultSpeed 200,
    .moveTo (.top PLATE COL 2),
    .comment "Waste Volume Check"] ++
   (if wastevol > 150000 then [.pause "Please empty the waste"] else []) ++
   [.dispense SUPVOL (.top "WasteRes" "A1" 0),
    .delay,
    .blowOut,
    .setDefaultSpeed 400,
    .moveTo (.top "WasteRes" "A1" (-5)),
    .moveTo (.top "WasteRes" "A1" 0),
    .setFlowRates p1000_flow_rate_aspirate_default
      p1000_flow_rate_dispense_default p1000_flow_rate_blow_out_default],
   wastevol)

/-- `removeSup` of `BombBio_Trizol_RNA_reuse_shake_v1.py` (lines 341-368):
identical clamping, two-stage aspiration, waste bookkeeping, pause check
and dispense; it only omits the final two moves over the waste reservoir. -/
def removeSup_v1 (PLATE COL : String) (SUPVOL : Rat) (wastevol : Rat)
    (Deepwell_Z_offset : Rat := 0) : List SupAction × Rat :=
  let SUPVOL := if SUPVOL < 100 then 100 else SUPVOL
  let wastevol := wastevol + SUPVOL * 8
  ([.setFlowRates (p1000_flow_rate_aspirate_default * (1/2))
      (p1000_flow_rate_dispense_default * (1/2))
      (p1000_flow_rate_blow_out_default * (1/2)),
    .moveTo (.bottom PLATE COL (Deepwell_Z_offset + 2)),
    .aspirate (SUPVOL - 100),
    .delay,
    .moveTo (.bottom PLATE COL (Deepwell_Z_offset + 1)),
    .aspirate 100,
    .setDefaultSpeed 200,
    .moveTo (.top PLATE COL 2),
    .comment "Waste Volume Check"] ++
   (if wastevol > 150000 then [.pause "Please empty the waste"] else []) ++
   [.dispense SUPVOL (.top "WasteRes" "A1" 0),
    .delay,
    .blowOut,
    .setFlowRates p1000_flow_rate_aspirate_default
      p1000_flow_rate_dispense_default p1000_flow_rate_blow_out_default],
   wastevol)

/-- Total volume aspirated in a trace. -/
def totalAspirated (acts : List SupAction) : Rat :=
  (acts.map fun a => match a with
    | .aspirate v => v
    | _ => 0).sum

/-- Total volume dispensed (anywhere) in a trace. -/
def totalDispensed (acts : List SupAction) : Rat :=
  (acts.map fun a => match a with
    | .dispense v _ => v
    | _ => 0).sum

/-- Total volume dispensed into waste-reservoir well A1 in a trace. -/
def totalDispensedToWaste (acts : List SupAction) : Rat :=
  (acts.map fun a => match a with
    | .dispense v (.top "WasteRes" "A1" _) => v
    | _ => 0).sum

/-- The waste counter after a sequence of `removeSup` calls of the
noShake-v3 protocol (one `SUPVOL` per call), starting from `w`.  The run
itself starts from `COUNTERS = ... WASTEVOL: 0 ...` (line 233). -/
def wasteAfterCalls_v3 (w : Rat) : List Rat → Rat
  | [] => w
  | v :: vs => wasteAfterCalls_v3 (removeSup_v3 "P" "A1" v w).2 vs

/-- The waste counter after a sequence of `removeSup` calls of the
shake-v1 protocol, starting from `w`. -/
def wasteAfterCalls_v1 (w : Rat) : List Rat → Rat
  | [] => w
  | v :: vs => wasteAfterCalls_v1 (removeSup_v1 "P" "A1" v w).2 vs

/-! ## The Rebind distribution loop of `BombBio_Trizol_RNA_reuse_noShake_v3.py`

Lines 204-213 select the binding-buffer source columns, lines 230-232 the
sample columns, and lines 427-456 distribute `REBINDVOL` (with a 20 µL air
gap) from source column `i` to a slice of the sample columns. -/

/-- `COLUMN_1_LIST` (line 231). -/
def COLUMN_1_LIST : List String :=
  ["A1", "A2", "A3", "A4", "A5", "A6", "A7", "A8", "A9", "A10", "A11", "A12"]

/-- `SAMPLECOLS` (line 232): the first `N_SAMPLECOLS` entries of
`COLUMN_1_LIST`. -/
def SAMPLECOLS (N_SAMPLECOLS : Nat) : List String :=
  COLUMN_1_LIST.take N_SAMPLECOLS

/-- `binding_buffer_column` of `BombBio_Trizol_RNA_reuse_noShake_v3.py`
(lines 204-211): the reagent-plate columns holding binding buffer, as a
function of `N_SAMPLECOLS`; other counts raise `ValueError`. -/
def binding_buffer_column (N_SAMPLECOLS : Nat) : Except String (List Nat) :=
  if N_SAMPLECOLS <= 4 then .ok [3]
  else if N_SAMPLECOLS <= 8 then .ok [3, 4]
  else if N_SAMPLECOLS <= 12 then .ok [3, 4, 5]
  else .error "Unsupported number of samples"

/-- The Rebind step (lines 433-455): for each index `i` into the
binding-buffer columns, one aspirate-dispense transfer per entry of
`SAMPLECOLS[i*4 : i*4+3]` (Python slice, i.e. drop `i*4` then take 3).
We record, in order, which sample column each dispense targets together
with the source column it draws from. -/
def rebindTransfers (N_SAMPLECOLS : Nat) (bindCols : List Nat) :
    List (Nat × String) :=
  (List.range bindCols.length).flatMap fun i =>
    (((SAMPLECOLS N_SAMPLECOLS).drop (i * 4)).take 3).map fun Y =>
      (bindCols.getD i 0, Y)

/-- The sample columns receiving a Rebind dispense, in dispense order. -/
def rebindDests (N_SAMPLECOLS : Nat) : List String :=
  match binding_buffer_column N_SAMPLECOLS with
  | .ok cols => (rebindTransfers N_SAMPLECOLS cols).map Prod.snd
  | .error _ => []

/-! ## UltraExpress `P1_V1.py`: sample/column split and tip-slot allocation -/

/-- `cols = math.ceil(num_samples / 8)` (`P1_V1.py` line 163, `P4_V1.py`
line 168); for a natural number this is the ceiling division `(n + 7) / 8`. -/
def colsP1 (num_samples : Nat) : Nat :=
  (num_samples + 7) / 8

/-- `cols_m` (`P1_V1.py` lines 164-173): the number of full columns used in
the dT25-beads preparation. -/
def cols_m (num_samples : Nat) : Nat :=
  if num_samples % 8 = 0 then colsP1 num_samples
  else if colsP1 num_samples = 1 then 0
  else colsP1 num_samples - 1

/-- `cols_s` (`P1_V1.py` lines 164-173): the size of the partial column
(`None` when the samples fill whole columns). -/
def cols_s (num_samples : Nat) : Option Nat :=
  if num_samples % 8 = 0 then none
  else if colsP1 num_samples = 1 then some num_samples
  else some (num_samples % 8)

/-- `required_cols_200_1` ... `required_cols_200_6` and their sum
(`P1_V1.py` lines 190-249): tip columns needed for the six 200 µL steps. -/
def required_cols_200_1 : Nat := 1 + 1 + 1

def required_cols_200_2 (num_samples : Nat) : Nat := colsP1 num_samples + 1

def required_cols_200_3 (num_samples : Nat) : Nat :=
  colsP1 num_samples + colsP1 num_samples

def required_cols_200_4 (num_samples : Nat) : Nat := 1 + colsP1 num_samples

def required_cols_200_5 (num_samples : Nat) : Nat :=
  colsP1 num_samples + colsP1 num_samples

def required_cols_200_6 (num_samples : Nat) : Nat := 1 + colsP1 num_samples

def required_cols_200 (num_samples : Nat) : Nat :=
  required_cols_200_1 + required_cols_200_2 num_samples
    + required_cols_200_3 num_samples + required_cols_200_4 num_samples
    + required_cols_200_5 num_samples + required_cols_200_6 num_samples

/-- `required_slots_num_200 = math.ceil(required_cols_200 / 12)`
(`P1_V1.py` line 250). -/
def required_slots_num_200 (num_samples : Nat) : Nat :=
  (required_cols_200 num_samples + 11) / 12

/-- `regular_slot_list` (`P1_V1.py` lines 231-238): the deck slots
available for 200 µL tip racks, depending on how many 50 µL racks are
needed. -/
def regular_slot_list (num_samples : Nat) : List String :=
  if colsP1 num_samples * 2 > 12 then ["B2", "B3", "C3"]
  else ["B2", "B3", "C3", "A3"]

/-- `slots_50` (`P1_V1.py` lines 231-238). -/
def slots_50 (num_samples : Nat) : List String :=
  if colsP1 num_samples * 2 > 12 then ["A2", "A3"] else ["A2"]

/-- `expansion_slots` (`P1_V1.py` line 239). -/
def expansion_slots : List String := ["A4", "B4", "C4"]

/-- `slots_200` (`P1_V1.py` lines 252-261): `difference` is computed as a
(possibly negative) integer. -/
def slots_200 (num_samples : Nat) : List String :=
  let difference : Int :=
    (required_slots_num_200 num_samples : Int)
      - (regular_slot_list num_samples).length
  if difference <= 0 then
    (regular_slot_list num_samples).take (required_slots_num_200 num_samples)
  else regular_slot_list num_samples

/-- `slots_200_extra` (`P1_V1.py` lines 252-261). -/
def slots_200_extra (num_samples : Nat) : List String :=
  let difference : Int :=
    (required_slots_num_200 num_samples : Int)
      - (regular_slot_list num_samples).length
  if difference <= 0 then []
  else expansion_slots.take difference.toNat

/-- The number of 200 µL tip racks loaded at protocol start (`P1_V1.py`
lines 278-285: one rack per entry of `slots_200` and of
`slots_200_extra`). -/
def loadedRacks200 (num_samples : Nat) : Nat :=
  (slots_200 num_samples).length + (slots_200_extra num_samples).length

/-! ## UltraExpress `P1_V1.py`: the setup error check (lines 118-157)

Before any instrument, module or labware is loaded, `run` reads the runtime
parameters and raises `ValueError` when `num_samples` is out of range (the
second check compares the fixed volume constants of lines 130-136 against
200 and can never fire).  Only after both checks does it compute the slot
assignment and load tips, pipettes, modules and plates.  `num_samples`
arrives as a Python `int`, so we model it as an integer. -/

/-- Volume constants of `P1_V1.py` lines 130-136. -/
def sample_vol : Rat := 50
def dT25_beads_vol : Rat := 20
def binding_buffer_vol : Rat := 50
def tris_and_binding_mm_vol : Rat := 100
def wash_buffer_vol : Rat := 200
def fragmentation_vol_in : Rat := 13 / 2
def fragmentation_vol_out : Rat := 5

/-- A hardware-facing call made during setup. -/
inductive SetupEvent where
  | loadTipRack (apiname slot : String)
  | loadInstrument (name mount : String)
  | loadModule (name : String)
  | loadAdapter (name : String)
  | loadWasteChute
  | loadLabware (name slot : String)
deriving DecidableEq, Repr

/-- The setup prefix of `run` in `P1_V1.py` (lines 118-330): the
`num_samples` range check (lines 146-147), then the volume check
(lines 149-157), then the loading calls in source order (tips, pipettes,
modules, labware).  Nothing is loaded before the checks. -/
def runP1Setup (num_samples : Int) : Except String (List SetupEvent) :=
  if num_samples > 96 || num_samples < 1 then
    .error "The number of samples should be between 1 and 96"
  else if dT25_beads_vol > 200 || binding_buffer_vol > 200
      || tris_and_binding_mm_vol > 200 || wash_buffer_vol > 200
      || fragmentation_vol_in > 200 || fragmentation_vol_out > 200 then
    .error "The volume should be equal to or less than 200 µL"
  else
    let n := num_samples.toNat
    .ok ((slots_50 n).map
          (SetupEvent.loadTipRack "opentrons_flex_96_filtertiprack_50ul")
      ++ (slots_200 n).map
          (SetupEvent.loadTipRack "opentrons_flex_96_filtertiprack_200ul")
      ++ (slots_200_extra n).map
          (SetupEvent.loadTipRack "opentrons_flex_96_filtertiprack_200ul")
      ++ [SetupEvent.loadInstrument "flex_8channel_50" "left",
          SetupEvent.loadInstrument "flex_8channel_1000" "right",
          SetupEvent.loadModule "thermocycler module gen2",
          SetupEvent.loadModule "magneticBlockV1",
          SetupEvent.loadModule "temperature module gen2",
          SetupEvent.loadAdapter "opentrons_96_deep_well_temp_mod_adapter",
          SetupEvent.loadWasteChute,
          SetupEvent.loadLabware "nest_96_wellplate_2ml_deep" "C1",
          SetupEvent.loadLabware "opentrons_96_wellplate_200ul_pcr_full_skirt"
            "thermocycler",
          SetupEvent.loadLabware "opentrons_96_wellplate_200ul_pcr_full_skirt"
            "C2",
          SetupEvent.loadLabware "opentrons_96_wellplate_200ul_pcr_full_skirt"
            "D4",
          SetupEvent.loadLabware "nest_1_reservoir_195ml" "D2"])

/-! ## UltraExpress `P1_V1.py`: `custom_mix` and `well_to_list`

Pipettes are reduced to what these functions inspect: whether the pipette
is the 8-channel 50 µL one, and the maximum volume of a tip in its first
rack (`pip.tip_racks[0].wells()[0].max_volume`). -/

structure Pipette where
  isP50 : Bool
  tipMax : Rat
deriving DecidableEq, Repr

/-- A destination or source well: its plate, well name and depth. -/
structure WellRef where
  plate : String
  name : String
  depth : Rat
deriving DecidableEq, Repr

/-- A position within a well, as used by `custom_mix` / `well_to_list`. -/
inductive PLoc where
  | well (plate name : String)
  | bottom (plate name : String) (z : Rat)
  | top (plate name : String) (z : Rat)
deriving DecidableEq, Repr

/-- A pipette command issued by `custom_mix` / `well_to_list`. -/
inductive PipAction where
  | pickUpTip
  | aspirate (vol rate : Rat) (loc : PLoc)
  | dispense (vol rate : Rat) (loc : PLoc)
  | configForVolume (v : Rat)
  | slowWithdraw (plate name : String) (z : Rat)
  | blowOut (loc : PLoc)
  | touchTip
  | dropTip
deriving DecidableEq, Repr

/-- `sorted(numbers)[1]` for the three-element list of `custom_mix`
(`P1_V1.py` line 644): the middle value. -/
def secondSmallest (a b c : Rat) : Rat :=
  if a <= b then
    (if b <= c then b else (if a <= c then c else a))
  else
    (if a <= c then a else (if b <= c then c else b))

/-- `custom_mix` of `P1_V1.py` (lines 624-654): `mix_rep` aspirations at
`mix_loc.bottom(low or 1.5)` and dispensings at `mix_loc.bottom(high or
2.5)` of the middle of `2-or-5`, `0.8 * tip max volume` and `mvol`; the
aspirations use the protocol-wide `sample_rate`.  `low = 0` / `high = 0`
stand for the Python default `False`. -/
def custom_mix (pip : Pipette) (sample_rate : Rat) (mvol : Rat)
    (mix_loc : WellRef) (mix_rep : Nat) (blowout : Bool := false)
    (low : Rat := 0) (high : Rat := 0) : List PipAction :=
  let asp := PLoc.bottom mix_loc.plate mix_loc.name
    (if low = 0 then 3 / 2 else low)
  let disp := PLoc.bottom mix_loc.plate mix_loc.name
    (if high = 0 then 5 / 2 else high)
  let a : Rat := if pip.isP50 then 2 else 5
  let b : Rat := (8 / 10) * pip.tipMax
  let c : Rat := mvol
  let vol := secondSmallest a b c
  (List.replicate mix_rep
    [PipAction.aspirate vol sample_rate asp,
     PipAction.dispense vol 1 disp]).flatten
  ++ (if blowout then
        [PipAction.slowWithdraw mix_loc.plate mix_loc.name (-3),
         PipAction.blowOut (PLoc.top mix_loc.plate mix_loc.name (-3)),
         PipAction.touchTip]
      else [])

/-- `well_to_list` of `P1_V1.py` (lines 680-730): for each destination in
order, optionally pick up a tip and pre-mix at the source, transfer
`transfer_vol` from `well` to `d.bottom(z_height)`, optionally post-mix
and withdraw, blow out near the top when dispensing low in the well, and
optionally drop the tip.  Python defaults: `pre_mix=False`,
`post_mix=False`, `post_mix_rep=0`, `post_mix_vol=0`,
`tip_withdrawal=False`, `change_tip=False`. -/
def well_to_list (pip : Pipette) (sample_rate : Rat) (well : WellRef)
    (dest_list : List WellRef) (transfer_vol : Rat) (liquid_rate : Rat)
    (z_height : Rat) (pre_mix : Bool := false) (post_mix : Bool := false)
    (post_mix_rep : Nat := 0) (post_mix_vol : Rat := 0)
    (tip_withdrawal : Bool := false) (change_tip : Bool := false) :
    List PipAction :=
  dest_list.flatMap fun d =>
    (if change_tip then [PipAction.pickUpTip] else [])
    ++ (if pre_mix then custom_mix pip sample_rate transfer_vol well 6
        else [])
    ++ (if pip.isP50 && 1 <= transfer_vol && transfer_vol <= 5 then
          [PipAction.configForVolume transfer_vol]
        else [])
    ++ [PipAction.aspirate transfer_vol liquid_rate
          (PLoc.well well.plate well.name),
        PipAction.dispense transfer_vol liquid_rate
          (PLoc.bottom d.plate d.name z_height)]
    ++ (if post_mix then
          let pmv := if pip.isP50 && 1 <= transfer_vol && transfer_vol <= 5
            then (if post_mix_vol > 25 then 25 else post_mix_vol)
            else post_mix_vol
          if pmv <= 10 then
            custom_mix pip sample_rate pmv d post_mix_rep false 1 1
          else custom_mix pip sample_rate pmv d post_mix_rep false
        else [])
    ++ (if tip_withdrawal then [PipAction.slowWithdraw d.plate d.name (-3)]
        else [])
    ++ (if pip.isP50 && 1 <= transfer_vol && transfer_vol <= 5 then
          [PipAction.configForVolume 50]
        else [])
    ++ (if z_height < (1 / 2) * d.depth then
          [PipAction.blowOut (PLoc.top d.plate d.name (-3))]
        else [])
    ++ (if change_tip then [PipAction.dropTip] else [])

/-- The aspirate commands of a trace, as (volume, location) pairs. -/
def aspirations (acts : List PipAction) : List (Rat × PLoc) :=
  acts.filterMap fun a => match a with
    | .aspirate v _ loc => some (v, loc)
    | _ => none

/-- The dispense commands of a trace, as (volume, location) pairs. -/
def dispensings (acts : List PipAction) : List (Rat × PLoc) :=
  acts.filterMap fun a => match a with
    | .dispense v _ loc => some (v, loc)
    | _ => none

/-- Total volume aspirated directly from well `w` in a trace. -/
def drawnFrom (w : WellRef) (acts : List PipAction) : Rat :=
  (acts.map fun a => match a with
    | .aspirate v _ (PLoc.well p n) => if p = w.plate && n = w.name then v else 0
    | _ => 0).sum

/-! ## UltraExpress `P1_V1.py` / `P4_V1.py`: `pick_up_200`

`pick_up_200` (P1 lines 546-596, P4 lines 532-582) keeps a cursor
`tip_count_200` into `tiporder_200`, the concatenated front rows of the
200 µL racks on deck.  When the cursor reaches the end it refills: with no
expansion racks left it pauses, reloads a rack into every `slots_200` slot
and every expansion slot; otherwise it shuffles the expansion racks into
the `slots_200` slots and rebuilds `tiporder_200` from their front rows
(the accompanying `move_labware` calls relocate labware but do not touch
the tracked lists).  Racks are identified by naturals, each contributing
its front row of 12 tips; `nSlots200 = len(slots_200)` and
`nSlotsExtra = len(slots_200_extra)` are fixed by the setup. -/

/-- The 12 front-row tips of rack `r`. -/
def rackRow (r : Nat) : List Nat :=
  (List.range 12).map fun i => r * 12 + i

structure Pick200State where
  tipCount : Nat
  tiporder : List Nat
  tips200 : List Nat
  tips200Extra : List Nat
  fresh : Nat
deriving DecidableEq, Repr

/-- One call of `pick_up_200`.  Returns the new state, the index into
`tiporder_200` used by `p1000m.pick_up_tip(tiporder_200[tip_count_200])`,
and the length of `tiporder_200` at that moment. -/
def pick_up_200 (nSlots200 nSlotsExtra : Nat) (s : Pick200State) :
    Pick200State × Nat × Nat :=
  if s.tipCount = s.tiporder.length then
    let s :=
      if s.tips200Extra.length = 0 then
        -- pause_attention, clear tiporder_200, reload racks in slots_200
        -- and in the expansion slots
        let tips200 := (List.range nSlots200).map fun i => s.fresh + i
        let tiporder := tips200.flatMap rackRow
        let extras := (List.range nSlotsExtra).map fun i =>
          s.fresh + nSlots200 + i
        { tipCount := s.tipCount, tiporder := tiporder, tips200 := tips200,
          tips200Extra := extras, fresh := s.fresh + nSlots200 + nSlotsExtra }
      else
        -- clear tiporder_200, move each expansion rack into a slots_200
        -- slot, appending its front row (loop over
        -- range(len(slots_200_extra))), then clear tips200_extra
        let tiporder := (List.range nSlotsExtra).flatMap fun b =>
          rackRow (s.tips200Extra.getD b 0)
        { s with tiporder := tiporder, tips200Extra := [] }
    let s := { s with tipCount := 0 }
    ({ s with tipCount := s.tipCount + 1 }, 0, s.tiporder.length)
  else
    ({ s with tipCount := s.tipCount + 1 }, s.tipCount, s.tiporder.length)

/-- The initial tip state (P1 lines 523-524 and 278-285, P4 lines 506-507
and 285-292): `tip_count_200 = 0`, one rack per `slots_200` slot with
`tiporder_200` their concatenated front rows, and one rack per
`slots_200_extra` slot. -/
def mkPick200 (nSlots200 nSlotsExtra : Nat) : Pick200State :=
  let tips200 := (List.range nSlots200).map fun i => i
  { tipCount := 0,
    tiporder := tips200.flatMap rackRow,
    tips200 := tips200,
    tips200Extra := (List.range nSlotsExtra).map fun i => nSlots200 + i,
    fresh := nSlots200 + nSlotsExtra }

/-- The state invariant of `pick_up_200`: the cursor never passes the end
of `tiporder_200`, and `tips200_extra` is either full (one rack per
expansion slot assigned at setup) or exhausted. -/
def Pick200Inv (nSlotsExtra : Nat) (s : Pick200State) : Prop :=
  s.tipCount <= s.tiporder.length
    ∧ (s.tips200Extra.length = nSlotsExtra ∨ s.tips200Extra = [])

/-! ## Helper lemmas -/

theorem TipType.update_same {α : Type} (f : TipType → α) (t : TipType)
    (a : α) : TipType.update f t a t = a := by
  simp [TipType.update]

theorem TipType.update_other {α : Type} (f : TipType → α) (t u : TipType)
    (a : α) (h : u ≠ t) : TipType.update f t a u = f u := by
  simp [TipType.update, h]

theorem swap_tips_tipsUsed (t : TipType) (s : TipStateV3)
    (ns : Option String) : (swap_tips t s ns).tipsUsed = s.tipsUsed := by
  unfold swap_tips
  cases ns <;> cases s.rack t <;>
    simp <;> cases (s.backups t).getLast? <;> simp

theorem get_next_tip_v3_le (t : TipType) (s : TipStateV3)
    (h : ∀ u, s.tipsUsed u ≤ 12) :
    (∀ u, (get_next_tip_v3 t s).1.tipsUsed u ≤ 12) ∧
      1 ≤ (get_next_tip_v3 t s).2 ∧ (get_next_tip_v3 t s).2 ≤ 12 := by
  unfold get_next_tip_v3
  by_cases h12 : s.tipsUsed t = 12
  · simp only [h12, if_pos, eq_self_iff_true, if_true, swap_tips_tipsUsed,
      TipType.update_same]
    refine ⟨fun u => ?_, le_refl 1, by omega⟩
    by_cases hu : u = t
    · subst hu; simp [TipType.update_same]
    · rw [TipType.update_other _ _ _ _ hu, TipType.update_other _ _ _ _ hu]
      exact h u
  · simp only [if_neg h12, TipType.update_same]
    have ht := h t
    refine ⟨fun u => ?_, by omega, by omega⟩
    by_cases hu : u = t
    · subst hu; rw [TipType.update_same]; omega
    · rw [TipType.update_other _ _ _ _ hu]; exact h u

theorem runCallsV3_le (calls : List TipType) (s : TipStateV3)
    (h : ∀ u, s.tipsUsed u ≤ 12) :
    (∀ u, (runCallsV3 s calls).1.tipsUsed u ≤ 12) ∧
      ∀ c ∈ (runCallsV3 s calls).2, 1 ≤ c ∧ c ≤ 12 := by
  induction calls generalizing s with
  | nil => simpa [runCallsV3] using h
  | cons t ts ih =>
      obtain ⟨h1, h2, h3⟩ := get_next_tip_v3_le t s h
      obtain ⟨ih1, ih2⟩ := ih (get_next_tip_v3 t s).1 h1
      simp only [runCallsV3]
      exact ⟨ih1, by
        intro c hc
        simp only [List.mem_cons] at hc
        rcases hc with rfl | hc
        · exact ⟨h2, h3⟩
        · exact ih2 c hc⟩
theorem load_new_tips_tipsUsed_same (t : TipType) (s : TipStateV1) :
    (load_new_tips t s).tipsUsed t = 0 := by
  unfold load_new_tips load_active_tips
  cases (s.backups t).getLast? <;> simp [TipType.update_same]

theorem load_new_tips_tipsUsed_other (t u : TipType) (s : TipStateV1)
    (hu : u ≠ t) : (load_new_tips t s).tipsUsed u = s.tipsUsed u := by
  unfold load_new_tips load_active_tips
  cases (s.backups t).getLast? <;> simp [TipType.update_other _ _ _ _ hu]

theorem get_next_tip_v1_le (t : TipType) (s : TipStateV1)
    (h : ∀ u, s.tipsUsed u ≤ 12) :
    (∀ u, (get_next_tip_v1 t s).1.tipsUsed u ≤ 12) ∧
      1 ≤ (get_next_tip_v1 t s).2 ∧ (get_next_tip_v1 t s).2 ≤ 12 := by
  unfold get_next_tip_v1
  by_cases h12 : s.tipsUsed t = 12
  · simp only [h12, eq_self_iff_true, if_true, load_new_tips_tipsUsed_same,
      TipType.update_same]
    refine ⟨fun u => ?_, by omega, by omega⟩
    by_cases hu : u = t
    · subst hu; rw [TipType.update_same]; omega
    · rw [TipType.update_other _ _ _ _ hu, load_new_tips_tipsUsed_other _ _ _ hu]
      exact h u
  · simp only [if_neg h12, TipType.update_same]
    have ht := h t
    refine ⟨fun u => ?_, by omega, by omega⟩
    by_cases hu : u = t
    · subst hu; rw [TipType.update_same]; omega
    · rw [TipType.update_other _ _ _ _ hu]; exact h u

theorem runCallsV1_le (calls : List TipType) (s : TipStateV1)
    (h : ∀ u, s.tipsUsed u ≤ 12) :
    (∀ u, (runCallsV1 s calls).1.tipsUsed u ≤ 12) ∧
      ∀ c ∈ (runCallsV1 s calls).2, 1 ≤ c ∧ c ≤ 12 := by
  induction calls generalizing s with
  | nil => simpa [runCallsV1] using h
  | cons t ts ih =>
      obtain ⟨h1, h2, h3⟩ := get_next_tip_v1_le t s h
      obtain ⟨ih1, ih2⟩ := ih (get_next_tip_v1 t s).1 h1
      simp only [runCallsV1]
      exact ⟨ih1, by
        intro c hc
        simp only [List.mem_cons] at hc
        rcases hc with rfl | hc
        · exact ⟨h2, h3⟩
        · exact ih2 c hc⟩
/-- **C1.** In every protocol using the `get_next_tip` bookkeeping (BombBio
noShake v3, BombBio shake v1, Yeast_OPP v1), the `tips_used` counter of each
tip type stays between 0 and 12 (counters are naturals, so only the upper
bound is stated).  A call with the counter below 12 picks column
`tips_used + 1` of the active rack and increments the counter; a call with
the counter at 12 first swaps a fresh rack in (`swap_tips` resp.
`load_new_tips`), resets the counter to 0, and picks column 1.  Hence every
pick addresses a column index in 1..12 — never beyond A12 — both per call
and along any run from the initial tip state of each protocol. -/
theorem C1_get_next_tip_invariant :
    (∀ (s : TipStateV3) (t : TipType), (∀ u, s.tipsUsed u ≤ 12) →
      (∀ u, (get_next_tip_v3 t s).1.tipsUsed u ≤ 12) ∧
      1 ≤ (get_next_tip_v3 t s).2 ∧ (get_next_tip_v3 t s).2 ≤ 12 ∧
      (s.tipsUsed t < 12 →
        (get_next_tip_v3 t s).2 = s.tipsUsed t + 1 ∧
        (get_next_tip_v3 t s).1.rack = s.rack ∧
        (get_next_tip_v3 t s).1.tipsUsed t = s.tipsUsed t + 1) ∧
      (s.tipsUsed t = 12 →
        (get_next_tip_v3 t s).2 = 1 ∧
        (get_next_tip_v3 t s).1.rack = (swap_tips t s).rack ∧
        (get_next_tip_v3 t s).1.tipsUsed t = 1)) ∧
    (∀ (s : TipStateV1) (t : TipType), (∀ u, s.tipsUsed u ≤ 12) →
      (∀ u, (get_next_tip_v1 t s).1.tipsUsed u ≤ 12) ∧
      1 ≤ (get_next_tip_v1 t s).2 ∧ (get_next_tip_v1 t s).2 ≤ 12 ∧
      (s.tipsUsed t < 12 →
        (get_next_tip_v1 t s).2 = s.tipsUsed t + 1 ∧
        (get_next_tip_v1 t s).1.rack = s.rack ∧
        (get_next_tip_v1 t s).1.tipsUsed t = s.tipsUsed t + 1) ∧
      (s.tipsUsed t = 12 →
        (get_next_tip_v1 t s).2 = 1 ∧
        (get_next_tip_v1 t s).1.rack = (load_new_tips t s).rack ∧
        (get_next_tip_v1 t s).1.tipsUsed t = 1)) ∧
    (∀ calls : List TipType,
      (∀ u, (runCallsV3 initStateV3 calls).1.tipsUsed u ≤ 12) ∧
      ∀ c ∈ (runCallsV3 initStateV3 calls).2, 1 ≤ c ∧ c ≤ 12) ∧
    (∀ calls : List TipType,
      (∀ u, (runCallsV1 initStateV1 calls).1.tipsUsed u ≤ 12) ∧
      ∀ c ∈ (runCallsV1 initStateV1 calls).2, 1 ≤ c ∧ c ≤ 12) := by
  refine ⟨fun s t h => ?_, fun s t h => ?_, fun calls => ?_, fun calls => ?_⟩
  · obtain ⟨h1, h2, h3⟩ := get_next_tip_v3_le t s h
    refine ⟨h1, h2, h3, fun hlt => ?_, fun heq => ?_⟩
    · have hne : s.tipsUsed t ≠ 12 := by omega
      unfold get_next_tip_v3
      simp [if_neg hne, TipType.update_same]
    · unfold get_next_tip_v3
      simp [heq, swap_tips_tipsUsed, TipType.update_same]
  · obtain ⟨h1, h2, h3⟩ := get_next_tip_v1_le t s h
    refine ⟨h1, h2, h3, fun hlt => ?_, fun heq => ?_⟩
    · have hne : s.tipsUsed t ≠ 12 := by omega
      unfold get_next_tip_v1
      simp [if_neg hne, TipType.update_same]
    · unfold get_next_tip_v1
      simp [heq, load_new_tips_tipsUsed_same, TipType.update_same]
  · exact runCallsV3_le calls initStateV3 (fun u => by cases u <;> decide)
  · exact runCallsV1_le calls initStateV1 (fun u => by cases u <;> decide)

/-- Witness for C1: the per-call facts and the run facts instantiated on
concrete states of the two protocol variants. -/
theorem C1_get_next_tip_invariant_witness :
    (1 ≤ (get_next_tip_v3 .tip1000 initStateV3).2 ∧
      (get_next_tip_v3 .tip1000 initStateV3).2 ≤ 12) ∧
    (1 ≤ (get_next_tip_v1 .tip1000 initStateV1).2 ∧
      (get_next_tip_v1 .tip1000 initStateV1).2 ≤ 12) ∧
    (∀ c ∈ (runCallsV3 initStateV3 (List.replicate 13 .tip1000)).2,
      1 ≤ c ∧ c ≤ 12) := by
  have h3 := C1_get_next_tip_invariant.1 initStateV3 .tip1000
    (fun u => by cases u <;> decide)
  have h1 := C1_get_next_tip_invariant.2.1 initStateV1 .tip1000
    (fun u => by cases u <;> decide)
  have hr := C1_get_next_tip_invariant.2.2.1 (List.replicate 13 .tip1000)
  exact ⟨⟨h3.2.1, h3.2.2.1⟩, ⟨h1.2.1, h1.2.2.1⟩, hr.2⟩
/-- The clamp at the top of `removeSup` equals a maximum. -/
theorem removeSup_clamp (v : Rat) :
    (if v < 100 then (100 : Rat) else v) = max v 100 := by
  rcases lt_or_le v 100 with h | h
  · simp [h, max_eq_right h.le]
  · simp [not_lt.mpr h, max_eq_left h]

theorem removeSup_v3_waste (PLATE COL : String) (SUPVOL w zoff : Rat) :
    (removeSup_v3 PLATE COL SUPVOL w zoff).2 = w + max SUPVOL 100 * 8 := by
  unfold removeSup_v3
  rw [removeSup_clamp]

theorem removeSup_v1_waste (PLATE COL : String) (SUPVOL w zoff : Rat) :
    (removeSup_v1 PLATE COL SUPVOL w zoff).2 = w + max SUPVOL 100 * 8 := by
  unfold removeSup_v1
  rw [removeSup_clamp]

theorem removeSup_v3_pause (PLATE COL : String) (SUPVOL w zoff : Rat) :
    SupAction.pause "Please empty the waste" ∈
        (removeSup_v3 PLATE COL SUPVOL w zoff).1 ↔
      w + max SUPVOL 100 * 8 > 150000 := by
  unfold removeSup_v3
  rw [removeSup_clamp]
  by_cases h : w + max SUPVOL 100 * 8 > 150000 <;> simp [h]

theorem removeSup_v1_pause (PLATE COL : String) (SUPVOL w zoff : Rat) :
    SupAction.pause "Please empty the waste" ∈
        (removeSup_v1 PLATE COL SUPVOL w zoff).1 ↔
      w + max SUPVOL 100 * 8 > 150000 := by
  unfold removeSup_v1
  rw [removeSup_clamp]
  by_cases h : w + max SUPVOL 100 * 8 > 150000 <;> simp [h]

theorem wasteAfterCalls_v3_mono (vs : List Rat) (w : Rat) :
    w ≤ wasteAfterCalls_v3 w vs := by
  induction vs generalizing w with
  | nil => simp [wasteAfterCalls_v3]
  | cons v vs ih =>
      refine le_trans ?_ (ih (removeSup_v3 "P" "A1" v w).2)
      rw [removeSup_v3_waste]
      have : (0 : Rat) ≤ max v 100 * 8 := by positivity
      linarith

theorem wasteAfterCalls_v1_mono (vs : List Rat) (w : Rat) :
    w ≤ wasteAfterCalls_v1 w vs := by
  induction vs generalizing w with
  | nil => simp [wasteAfterCalls_v1]
  | cons v vs ih =>
      refine le_trans ?_ (ih (removeSup_v1 "P" "A1" v w).2)
      rw [removeSup_v1_waste]
      have : (0 : Rat) ≤ max v 100 * 8 := by positivity
      linarith

/-- **C2.** Every `removeSup` call with supernatant volume `SUPVOL` adds
exactly `max(SUPVOL, 100) * 8` µL to the `WASTEVOL` counter, in both
BombBio protocols; consequently along any run the counter starts at 0 and
never decreases; and the `Please empty the waste` pause is emitted exactly
when the updated total exceeds 150000 µL. -/
theorem C2_waste_counter (PLATE COL : String) (SUPVOL w zoff : Rat)
    (vs : List Rat) :
    (removeSup_v3 PLATE COL SUPVOL w zoff).2 = w + max SUPVOL 100 * 8 ∧
    (removeSup_v1 PLATE COL SUPVOL w zoff).2 = w + max SUPVOL 100 * 8 ∧
    w ≤ (removeSup_v3 PLATE COL SUPVOL w zoff).2 ∧
    w ≤ (removeSup_v1 PLATE COL SUPVOL w zoff).2 ∧
    (0 : Rat) ≤ wasteAfterCalls_v3 0 vs ∧
    w ≤ wasteAfterCalls_v3 w vs ∧
    (SupAction.pause "Please empty the waste" ∈
        (removeSup_v3 PLATE COL SUPVOL w zoff).1 ↔
      w + max SUPVOL 100 * 8 > 150000) ∧
    (SupAction.pause "Please empty the waste" ∈
        (removeSup_v1 PLATE COL SUPVOL w zoff).1 ↔
      w + max SUPVOL 100 * 8 > 150000) ∧
    (0 : Rat) ≤ wasteAfterCalls_v1 0 vs ∧
    w ≤ wasteAfterCalls_v1 w vs := by
  have h8 : (0 : Rat) ≤ max SUPVOL 100 * 8 := by positivity
  refine ⟨removeSup_v3_waste _ _ _ _ _, removeSup_v1_waste _ _ _ _ _,
    ?_, ?_, wasteAfterCalls_v3_mono vs 0, wasteAfterCalls_v3_mono vs w,
    removeSup_v3_pause _ _ _ _ _, removeSup_v1_pause _ _ _ _ _,
    wasteAfterCalls_v1_mono vs 0, wasteAfterCalls_v1_mono vs w⟩
  · rw [removeSup_v3_waste]; linarith
  · rw [removeSup_v1_waste]; linarith

/-- Witness for C2: the default BombBio input volume 420 µL from an empty
waste reservoir adds 3360 µL and does not trigger the pause. -/
theorem C2_waste_counter_witness :
    (removeSup_v3 "SamplePlate" "A1" 420 0 0).2 = 0 + max 420 100 * 8 ∧
    ¬ (SupAction.pause "Please empty the waste" ∈
        (removeSup_v3 "SamplePlate" "A1" 420 0 0).1) := by
  have h := C2_waste_counter "SamplePlate" "A1" 420 0 0 []
  refine ⟨h.1, ?_⟩
  rw [h.2.2.2.2.2.2.1]
  norm_num
/-- **C4.** `removeSup` clamps its volume up to 100 µL and aspirates in two
stages: the clamped volume minus 100 µL right after moving to 2 mm above
the well bottom (plus the Z offset), then 100 µL at 1 mm; it dispenses the
full clamped volume into well A1 of the waste reservoir.  So total
aspirated = total dispensed = total sent to waste = `max(SUPVOL, 100)`, in
both BombBio protocols. -/
theorem C4_removeSup_two_stage (PLATE COL : String) (SUPVOL w zoff : Rat) :
    totalAspirated (removeSup_v3 PLATE COL SUPVOL w zoff).1 = max SUPVOL 100 ∧
    totalDispensed (removeSup_v3 PLATE COL SUPVOL w zoff).1 = max SUPVOL 100 ∧
    totalDispensedToWaste (removeSup_v3 PLATE COL SUPVOL w zoff).1
      = max SUPVOL 100 ∧
    (removeSup_v3 PLATE COL SUPVOL w zoff).1.take 6 =
      [.setFlowRates 100 100 200,
       .moveTo (.bottom PLATE COL (zoff + 2)),
       .aspirate (max SUPVOL 100 - 100),
       .delay,
       .moveTo (.bottom PLATE COL (zoff + 1)),
       .aspirate 100] ∧
    SupAction.dispense (max SUPVOL 100) (.top "WasteRes" "A1" 0) ∈
      (removeSup_v3 PLATE COL SUPVOL w zoff).1 ∧
    totalAspirated (removeSup_v1 PLATE COL SUPVOL w zoff).1 = max SUPVOL 100 ∧
    totalDispensed (removeSup_v1 PLATE COL SUPVOL w zoff).1 = max SUPVOL 100 ∧
    totalDispensedToWaste (removeSup_v1 PLATE COL SUPVOL w zoff).1
      = max SUPVOL 100 ∧
    (removeSup_v1 PLATE COL SUPVOL w zoff).1.take 6 =
      [.setFlowRates 100 100 200,
       .moveTo (.bottom PLATE COL (zoff + 2)),
       .aspirate (max SUPVOL 100 - 100),
       .delay,
       .moveTo (.bottom PLATE COL (zoff + 1)),
       .aspirate 100] ∧
    SupAction.dispense (max SUPVOL 100) (.top "WasteRes" "A1" 0) ∈
      (removeSup_v1 PLATE COL SUPVOL w zoff).1 := by
  unfold removeSup_v3 removeSup_v1
  rw [removeSup_clamp]
  by_cases h : w + max SUPVOL 100 * 8 > 150000 <;>
    simp [h, totalAspirated, totalDispensed, totalDispensedToWaste,
      p1000_flow_rate_aspirate_default, p1000_flow_rate_dispense_default,
      p1000_flow_rate_blow_out_default] <;>
    norm_num
/-- **C3** (code bug, demonstration).  The Rebind loop of the noShake v3
protocol iterates `for Y in SAMPLECOLS[i*4 : i*4+3]` — a three-element
slice — although its own comment says four transfers per binding-buffer
column, and the binding-buffer columns were provisioned one per four
sample columns.  Hence with 4 sample columns only `A1`, `A2`, `A3` receive
a dispense and `A4` is skipped; with 12 sample columns the sample columns
`A4`, `A8` and `A12` are skipped (9 dispenses instead of 12), so the
distribution step does not cover every sample column exactly once. -/
theorem C3_rebind_skips_columns :
    rebindDests 4 = ["A1", "A2", "A3"] ∧
    "A4" ∈ SAMPLECOLS 4 ∧
    "A4" ∉ rebindDests 4 ∧
    rebindDests 12 =
      ["A1", "A2", "A3", "A5", "A6", "A7", "A9", "A10", "A11"] ∧
    "A4" ∉ rebindDests 12 ∧ "A8" ∉ rebindDests 12 ∧
    "A12" ∉ rebindDests 12 ∧
    (rebindDests 12).length = 9 ∧ (SAMPLECOLS 12).length = 12 := by
  decide
/-- **C5.** In UltraExpress P1_V1, for every `num_samples` in 1..96 the
column split satisfies `cols = ceil(num_samples / 8)` (characterized by
`8*(cols-1) < num_samples ≤ 8*cols`); when `num_samples` is a multiple of
8, `cols_m = cols` and `cols_s = None`; otherwise
`8 * cols_m + cols_s = num_samples` with `cols_s` between 1 and 7. -/
theorem C5_column_split (n : Nat) (h1 : 1 ≤ n) (h2 : n ≤ 96) :
    (8 * (colsP1 n - 1) < n ∧ n ≤ 8 * colsP1 n) ∧
    (n % 8 = 0 → cols_m n = colsP1 n ∧ cols_s n = none) ∧
    (n % 8 ≠ 0 → ∃ s, cols_s n = some s ∧ 1 ≤ s ∧ s ≤ 7 ∧
      8 * cols_m n + s = n) := by
  refine ⟨⟨?_, ?_⟩, fun h8 => ?_, fun h8 => ?_⟩
  · unfold colsP1; omega
  · unfold colsP1; omega
  · simp [cols_m, cols_s, h8]
  · by_cases hc : colsP1 n = 1
    · refine ⟨n, ?_, h1, ?_, ?_⟩
      · simp [cols_s, h8, hc]
      · unfold colsP1 at hc; omega
      · simp [cols_m, h8, hc]
    · refine ⟨n % 8, ?_, by omega, by omega, ?_⟩
      · simp [cols_s, h8, hc]
      · simp [cols_m, h8, hc]
        unfold colsP1 at hc ⊢; omega

/-- Witness for C5: the split at the default `num_samples = 94`:
`cols = 12`, `cols_m = 11`, `cols_s = 6`. -/
theorem C5_column_split_witness :
    (8 * (colsP1 94 - 1) < 94 ∧ 94 ≤ 8 * colsP1 94) ∧
    (∃ s, cols_s 94 = some s ∧ 1 ≤ s ∧ s ≤ 7 ∧ 8 * cols_m 94 + s = 94) := by
  have h := C5_column_split 94 (by decide) (by decide)
  exact ⟨h.1, h.2.2 (by decide)⟩
/-- **C6** (counterexample).  At `num_samples = 96` the six per-step tip
requirements sum to `required_cols_200 = 90`, so
`required_slots_num_200 = 8`, but only 3 regular slots plus 3 expansion
slots exist, and the start-up loading places just 6 racks — the claimed
equality fails. -/
theorem C6_tip_rack_loading_counterexample :
    loadedRacks200 96 = 6 ∧ required_slots_num_200 96 = 8 ∧
    loadedRacks200 96 ≠ required_slots_num_200 96 := by
  decide

/-- **C6** (amended).  The number of 200 µL tip racks loaded at protocol
start equals `required_slots_num_200` capped at the number of available
slots (`regular_slot_list` plus the three expansion slots): the claimed
equality holds exactly for `num_samples ≤ 72`, while for
`num_samples ≥ 73` only 6 racks are loaded although 7 or 8 would be
required (the shortfall is later made up by the refill branch of
`pick_up_200` and its
pause). -/
theorem C6_tip_rack_loading_amended (n : Nat) (h1 : 1 ≤ n) (h2 : n ≤ 96) :
    loadedRacks200 n =
      min (required_slots_num_200 n)
        ((regular_slot_list n).length + expansion_slots.length) ∧
    (n ≤ 72 → loadedRacks200 n = required_slots_num_200 n) ∧
    (73 ≤ n → loadedRacks200 n = 6 ∧ 7 ≤ required_slots_num_200 n) := by
  have key : ∀ m, m < 97 → 1 ≤ m →
      (loadedRacks200 m =
        min (required_slots_num_200 m)
          ((regular_slot_list m).length + expansion_slots.length) ∧
      (m ≤ 72 → loadedRacks200 m = required_slots_num_200 m) ∧
      (73 ≤ m → loadedRacks200 m = 6 ∧ 7 ≤ required_slots_num_200 m)) := by
    decide
  exact key n (by omega) h1

/-- Witness for C6 (amended): at the default `num_samples = 94` the cap is
active — 6 racks are loaded though 8 are required — and at 72 the equality
still holds. -/
theorem C6_tip_rack_loading_amended_witness :
    loadedRacks200 94 =
      min (required_slots_num_200 94)
        ((regular_slot_list 94).length + expansion_slots.length) ∧
    loadedRacks200 72 = required_slots_num_200 72 := by
  exact ⟨(C6_tip_rack_loading_amended 94 (by decide) (by decide)).1,
    (C6_tip_rack_loading_amended 72 (by decide) (by decide)).2.1 (by decide)⟩
theorem aspirations_append (l1 l2 : List PipAction) :
    aspirations (l1 ++ l2) = aspirations l1 ++ aspirations l2 :=
  List.filterMap_append _ _ _

theorem dispensings_append (l1 l2 : List PipAction) :
    dispensings (l1 ++ l2) = dispensings l1 ++ dispensings l2 :=
  List.filterMap_append _ _ _

theorem drawnFrom_append (w : WellRef) (l1 l2 : List PipAction) :
    drawnFrom w (l1 ++ l2) = drawnFrom w l1 + drawnFrom w l2 := by
  simp [drawnFrom]

theorem well_to_list_aspirations (pip : Pipette) (sr : Rat) (well : WellRef)
    (dests : List WellRef) (tv lr z : Rat) (tw ct : Bool) :
    aspirations
        (well_to_list pip sr well dests tv lr z false false 0 0 tw ct) =
      List.replicate dests.length (tv, PLoc.well well.plate well.name) := by
  induction dests with
  | nil => simp [well_to_list, aspirations]
  | cons d ds ih =>
      simp only [well_to_list, List.flatMap_cons] at ih ⊢
      rw [aspirations_append, ih]
      simp only [List.length_cons, List.replicate_succ, if_neg Bool.false_ne_true]
      simp only [aspirations, List.filterMap_append]
      split_ifs <;> simp [aspirations]
theorem well_to_list_dispensings (pip : Pipette) (sr : Rat) (well : WellRef)
    (dests : List WellRef) (tv lr z : Rat) (tw ct : Bool) :
    dispensings
        (well_to_list pip sr well dests tv lr z false false 0 0 tw ct) =
      dests.map (fun d => (tv, PLoc.bottom d.plate d.name z)) := by
  induction dests with
  | nil => simp [well_to_list, dispensings]
  | cons d ds ih =>
      simp only [well_to_list, List.flatMap_cons,
        if_neg Bool.false_ne_true] at ih ⊢
      rw [dispensings_append, ih]
      simp only [List.map_cons]
      split_ifs <;> simp [dispensings]

theorem well_to_list_drawnFrom (pip : Pipette) (sr : Rat) (well : WellRef)
    (dests : List WellRef) (tv lr z : Rat) (tw ct : Bool) :
    drawnFrom well
        (well_to_list pip sr well dests tv lr z false false 0 0 tw ct) =
      tv * dests.length := by
  induction dests with
  | nil => simp [well_to_list, drawnFrom]
  | cons d ds ih =>
      simp only [well_to_list, List.flatMap_cons,
        if_neg Bool.false_ne_true] at ih ⊢
      rw [drawnFrom_append, ih]
      split_ifs <;> simp [drawnFrom] <;> ring
/-- **C7.** In UltraExpress P1_V1, `well_to_list` called with a single
source well, a destination list and the remaining arguments at their
defaults (`pre_mix=False`, `post_mix=False`; tip handling flags free)
performs, for each destination in list order, exactly one aspirate of
`transfer_vol` from the source well and exactly one dispense of
`transfer_vol` into that destination at the given z-height, so the total
volume drawn from the source is `transfer_vol` times the number of
destinations. -/
theorem C7_well_to_list_balance (pip : Pipette) (sr : Rat) (well : WellRef)
    (dests : List WellRef) (tv lr z : Rat) (tw ct : Bool) :
    aspirations
        (well_to_list pip sr well dests tv lr z false false 0 0 tw ct) =
      List.replicate dests.length (tv, PLoc.well well.plate well.name) ∧
    dispensings
        (well_to_list pip sr well dests tv lr z false false 0 0 tw ct) =
      dests.map (fun d => (tv, PLoc.bottom d.plate d.name z)) ∧
    drawnFrom well
        (well_to_list pip sr well dests tv lr z false false 0 0 tw ct) =
      tv * dests.length :=
  ⟨well_to_list_aspirations pip sr well dests tv lr z tw ct,
   well_to_list_dispensings pip sr well dests tv lr z tw ct,
   well_to_list_drawnFrom pip sr well dests tv lr z tw ct⟩
/-- **C8** (counterexample).  The claim asserts that the backup-swap
routines leave both `tips_used` counters unchanged, but in shake v1
`load_new_tips` ends with `load_active_tips`, which resets the given tip
counter of the given type to 0: on a state with the tip1000 counter at 12
(exactly
the state in which `get_next_tip` invokes it) the counter drops to 0. -/
theorem C8_swap_frame_counterexample :
    ({ rack := fun _ => some 0, backups := fun _ => [],
       tipsUsed := fun _ => 12, fresh := 3 } : TipStateV1).tipsUsed
        .tip1000 = 12 ∧
    (load_new_tips .tip1000
      { rack := fun _ => some 0, backups := fun _ => [],
        tipsUsed := fun _ => 12, fresh := 3 }).tipsUsed .tip1000 = 0 := by
  exact ⟨rfl, rfl⟩

/-- **C8** (amended).  A backup-swap call for a given tip type changes only
the active-rack entry of that tip type (and, when a backup rack is
consumed, shortens the backup list of that tip type by exactly one,
popping the most recently added rack); the active rack, backup list and
`tips_used` counter of the other tip type are unchanged.  As for the
counter of the swapped type: `swap_tips` (noShake v3) leaves both counters
unchanged, while `load_new_tips` (shake v1) additionally resets the
counter of the given tip type to 0 (via `load_active_tips`). -/
theorem C8_swap_frame_amended :
    (∀ (s : TipStateV3) (t u : TipType) (ns : Option String), u ≠ t →
      (swap_tips t s ns).rack u = s.rack u ∧
      (swap_tips t s ns).deckslot u = s.deckslot u ∧
      (swap_tips t s ns).backups u = s.backups u) ∧
    (∀ (s : TipStateV3) (t : TipType) (ns : Option String),
      (swap_tips t s ns).tipsUsed = s.tipsUsed ∧
      (s.backups t = [] → (swap_tips t s ns).backups = s.backups) ∧
      (∀ r, s.rack t = some r → s.backups t ≠ [] →
        (swap_tips t s ns).backups t = (s.backups t).dropLast ∧
        (swap_tips t s ns).rack t = (s.backups t).getLast?)) ∧
    (∀ (s : TipStateV1) (t u : TipType), u ≠ t →
      (load_new_tips t s).rack u = s.rack u ∧
      (load_new_tips t s).backups u = s.backups u ∧
      (load_new_tips t s).tipsUsed u = s.tipsUsed u) ∧
    (∀ (s : TipStateV1) (t : TipType),
      (load_new_tips t s).tipsUsed t = 0 ∧
      (s.backups t = [] → (load_new_tips t s).backups = s.backups) ∧
      (s.backups t ≠ [] →
        (load_new_tips t s).backups t = (s.backups t).dropLast ∧
        (load_new_tips t s).rack t = (s.backups t).getLast?)) := by
  refine ⟨fun s t u ns hu => ?_, fun s t ns => ?_, fun s t u hu => ?_,
    fun s t => ?_⟩
  · unfold swap_tips
    cases ns <;> cases h : s.rack t <;>
      simp [h, TipType.update_other _ _ _ _ hu] <;>
      cases (s.backups t).getLast? <;>
      simp [TipType.update_other _ _ _ _ hu]
  · refine ⟨swap_tips_tipsUsed t s ns, fun hb => ?_, fun r hr hb => ?_⟩
    · unfold swap_tips
      cases ns <;> cases h : s.rack t <;>
        simp [h, hb, List.getLast?_eq_none_iff.mpr hb]
    · have hlast : (s.backups t).getLast? ≠ none := by
        simpa [List.getLast?_eq_none_iff] using hb
      obtain ⟨b, hbl⟩ := Option.ne_none_iff_exists'.mp hlast
      unfold swap_tips
      cases ns <;>
        simp [hr, hbl, TipType.update_same]
  · unfold load_new_tips load_active_tips
    cases (s.backups t).getLast? <;>
      simp [TipType.update_other _ _ _ _ hu]
  · refine ⟨load_new_tips_tipsUsed_same t s, fun hb => ?_, fun hb => ?_⟩
    · unfold load_new_tips load_active_tips
      simp [List.getLast?_eq_none_iff.mpr hb, hb]
    · have hlast : (s.backups t).getLast? ≠ none := by
        simpa [List.getLast?_eq_none_iff] using hb
      obtain ⟨b, hbl⟩ := Option.ne_none_iff_exists'.mp hlast
      unfold load_new_tips load_active_tips
      simp [hbl, TipType.update_same]

/-- Witness for C8 (amended): the frame facts instantiated on the shake v1
initial tip state (active 1000 µL rack 0, backup rack 2) and on the
noShake v3 initial state. -/
theorem C8_swap_frame_amended_witness :
    (swap_tips .tip1000 initStateV3).tipsUsed = initStateV3.tipsUsed ∧
    (swap_tips .tip1000 initStateV3).backups .tip1000 =
      (initStateV3.backups .tip1000).dropLast ∧
    (swap_tips .tip1000 initStateV3).rack .tip1000 =
      (initStateV3.backups .tip1000).getLast? ∧
    (load_new_tips .tip1000 initStateV1).backups .tip1000 =
      (initStateV1.backups .tip1000).dropLast ∧
    (load_new_tips .tip1000 initStateV1).rack .tip1000 =
      (initStateV1.backups .tip1000).getLast? ∧
    (load_new_tips .tip1000 initStateV1).tipsUsed .tip50 =
      initStateV1.tipsUsed .tip50 := by
  have hv3 := C8_swap_frame_amended.2.1 initStateV3 .tip1000 none
  have hv3b := hv3.2.2 0 (by decide) (by decide)
  have hv1 := C8_swap_frame_amended.2.2.2 initStateV1 .tip1000
  have hv1b := hv1.2.2 (by decide)
  have hv1f := C8_swap_frame_amended.2.2.1 initStateV1 .tip1000 .tip50
    (by decide)
  exact ⟨hv3.1, hv3b.1, hv3b.2, hv1b.1, hv1b.2, hv1f.2.2⟩
/-- **C9.** The `run` of UltraExpress P1_V1 raises
`ValueError("The number of samples should be between 1 and 96")` if and
only if `num_samples > 96` or `num_samples < 1`; the only reachable error
is that one (the volume check compares fixed constants against 200 and
never fires); it performs no loading call before the check (on the error
path the setup produces no events at all); and under the runtime-parameter
bounds of `add_parameters` (1..96) the error branch is unreachable. -/
theorem C9_num_samples_check (n : Int) :
    (runP1Setup n =
        .error "The number of samples should be between 1 and 96" ↔
      (n > 96 ∨ n < 1)) ∧
    ((n > 96 ∨ n < 1) → ∀ evs, runP1Setup n ≠ .ok evs) ∧
    (∀ e, runP1Setup n = .error e →
      e = "The number of samples should be between 1 and 96") ∧
    (1 ≤ n → n ≤ 96 → ∃ evs, runP1Setup n = .ok evs) := by
  unfold runP1Setup
  split_ifs with h1 h2
  · simp only [Bool.or_eq_true, decide_eq_true_eq] at h1
    refine ⟨⟨fun _ => h1, fun _ => rfl⟩, fun _ evs h => by simp at h,
      fun e he => ?_, fun hge hle => ?_⟩
    · exact (((Except.error.injEq _ _) ▸ he) : _ = e).symm
    · omega
  · exfalso
    norm_num [dT25_beads_vol, binding_buffer_vol, tris_and_binding_mm_vol,
      wash_buffer_vol, fragmentation_vol_in, fragmentation_vol_out] at h2
  · simp only [Bool.or_eq_true, decide_eq_true_eq, not_or] at h1
    refine ⟨⟨fun h => by simp at h, fun h => absurd h (by push_neg; omega)⟩,
      fun h _ _ => absurd h (by push_neg; omega), fun e he => by simp at he,
      fun _ _ => ⟨_, rfl⟩⟩

/-- Witness for C9: at the default `num_samples = 94` the setup succeeds,
and at `num_samples = 97` it fails with exactly the range error. -/
theorem C9_num_samples_check_witness :
    (∃ evs, runP1Setup 94 = .ok evs) ∧
    (runP1Setup 97 =
      .error "The number of samples should be between 1 and 96") := by
  refine ⟨(C9_num_samples_check 94).2.2.2 (by norm_num) (by norm_num), ?_⟩
  exact (C9_num_samples_check 97).1.mpr (by norm_num)
theorem rackRow_length (r : Nat) : (rackRow r).length = 12 := by
  simp [rackRow]

theorem length_flatMap_rackRow {α : Type} (l : List α) (f : α → List Nat)
    (h : ∀ a, (f a).length = 12) : (l.flatMap f).length = 12 * l.length := by
  induction l with
  | nil => simp
  | cons a l ih => simp [ih, h a]; ring

/-- **C10.** In UltraExpress P1_V1 and P4_V1, every tip pick-up inside
`pick_up_200` indexes `tiporder_200` in bounds: the index used by
`p1000m.pick_up_tip(tiporder_200[tip_count_200])` is strictly below the
length of `tiporder_200` at that moment.  The refill branch runs exactly
when `tip_count_200 == len(tiporder_200)` (otherwise the call only
advances the cursor) and always leaves `tip_count_200 = 0` with a
non-empty `tiporder_200` before picking; the invariant is preserved by
every call and holds in the initial state built by the setup. -/
theorem C10_pick_up_200_safe (nSlots200 nSlotsExtra : Nat)
    (s : Pick200State) (h200 : 1 ≤ nSlots200)
    (hinv : Pick200Inv nSlotsExtra s) :
    (pick_up_200 nSlots200 nSlotsExtra s).2.1 <
      (pick_up_200 nSlots200 nSlotsExtra s).2.2 ∧
    Pick200Inv nSlotsExtra (pick_up_200 nSlots200 nSlotsExtra s).1 ∧
    (s.tipCount ≠ s.tiporder.length →
      (pick_up_200 nSlots200 nSlotsExtra s).1.tiporder = s.tiporder ∧
      (pick_up_200 nSlots200 nSlotsExtra s).2.1 = s.tipCount ∧
      (pick_up_200 nSlots200 nSlotsExtra s).2.2 = s.tiporder.length ∧
      (pick_up_200 nSlots200 nSlotsExtra s).1.tipCount = s.tipCount + 1) ∧
    (s.tipCount = s.tiporder.length →
      (pick_up_200 nSlots200 nSlotsExtra s).2.1 = 0 ∧
      0 < (pick_up_200 nSlots200 nSlotsExtra s).2.2 ∧
      (pick_up_200 nSlots200 nSlotsExtra s).1.tipCount = 1) ∧
    Pick200Inv nSlotsExtra (mkPick200 nSlots200 nSlotsExtra) := by
  obtain ⟨hle, hfull⟩ := hinv
  have hmk : Pick200Inv nSlotsExtra (mkPick200 nSlots200 nSlotsExtra) := by
    constructor
    · simp [mkPick200]
    · left; simp [mkPick200]
  by_cases heq : s.tipCount = s.tiporder.length
  · by_cases hext : s.tips200Extra.length = 0
    · have hlen : ((((List.range nSlots200).map fun i => s.fresh + i)).flatMap
          rackRow).length = 12 * nSlots200 := by
        rw [length_flatMap_rackRow _ _ rackRow_length]
        simp
      unfold pick_up_200
      rw [if_pos heq, if_pos hext]
      refine ⟨?_, ⟨?_, ?_⟩, fun h => absurd heq h, fun _ => ⟨rfl, ?_, rfl⟩,
        hmk⟩
      · show 0 < (_ : List Nat).length
        rw [hlen]; omega
      · show 0 + 1 ≤ (_ : List Nat).length
        rw [hlen]; omega
      · left
        show (((List.range nSlotsExtra).map fun i =>
          s.fresh + nSlots200 + i)).length = nSlotsExtra
        simp
      · show 0 < (_ : List Nat).length
        rw [hlen]; omega
    · have hfull2 : s.tips200Extra.length = nSlotsExtra := by
        rcases hfull with h | h
        · exact h
        · exact absurd (by simp [h]) hext
      have hpos : 1 ≤ nSlotsExtra := by omega
      have hlen : ((List.range nSlotsExtra).flatMap fun b =>
          rackRow (s.tips200Extra.getD b 0)).length = 12 * nSlotsExtra := by
        rw [length_flatMap_rackRow _ _ (fun a => rackRow_length _)]
        simp
      unfold pick_up_200
      rw [if_pos heq, if_neg hext]
      refine ⟨?_, ⟨?_, Or.inr rfl⟩, fun h => absurd heq h,
        fun _ => ⟨rfl, ?_, rfl⟩, hmk⟩
      · show 0 < (_ : List Nat).length
        rw [hlen]; omega
      · show 0 + 1 ≤ (_ : List Nat).length
        rw [hlen]; omega
      · show 0 < (_ : List Nat).length
        rw [hlen]; omega
  · have hlt : s.tipCount < s.tiporder.length := by omega
    unfold pick_up_200
    rw [if_neg heq]
    exact ⟨hlt, ⟨by show s.tipCount + 1 ≤ s.tiporder.length; omega, hfull⟩,
      fun _ => ⟨rfl, rfl, rfl, rfl⟩, fun h => absurd h heq, hmk⟩

/-- Witness for C10: the P1_V1 configuration for the default
`num_samples = 94` has 3 `slots_200` racks and 3 expansion racks; a
`pick_up_200` call on its initial state picks index 0 of a 36-tip order,
and the invariant holds afterwards. -/
theorem C10_pick_up_200_safe_witness :
    (pick_up_200 3 3 (mkPick200 3 3)).2.1 <
      (pick_up_200 3 3 (mkPick200 3 3)).2.2 ∧
    Pick200Inv 3 (pick_up_200 3 3 (mkPick200 3 3)).1 := by
  have h := C10_pick_up_200_safe 3 3 (mkPick200 3 3) (by decide)
    ⟨by decide, by decide⟩
  exact ⟨h.1, h.2.1⟩
end BardLab
